import Mathlib

/-!
Verification development for the RTR archiving pipeline (src/code/rtr.py).

The Python source is shallowly embedded:
* parsed JSON values (the payloads of `response.json()`) become the inductive
  type `Json`; Python `None` and JSON `null` coincide, as they do in Python's
  `json` module, and are both `Json.null`;
* Python exceptions (KeyError / IndexError / TypeError-AttributeError) become
  the error type `PyErr` in an `Except PyErr` result;
* the mutable fields of the `RTR` object (`sttr_url_per_activity`,
  `werkingsgebied_per_activity`) together with the observable side effects
  (printed log lines, spreadsheet rows, written files) become the record `St`,
  threaded explicitly;
* the HTTP session becomes a function `fetch : String → HttpResp` supplied in
  the environment `Env`; `response.ok` of the `requests` library is
  `status < 400`;
* Python string operations are re-implemented over `List Char` with
  fuel-based structural recursion so that every definition evaluates by
  kernel reduction.
-/

/-- Parsed JSON values / Python values as returned by `response.json()`.
`null` doubles as Python `None`. -/
inductive Json where
  | null
  | bool (b : Bool)
  | str (s : String)
  | num (n : Int)
  | arr (xs : List Json)
  | obj (fs : List (String × Json))

/-- Python exceptions that the embedded code can raise.  `typeError` also
stands for `AttributeError` (calling a `str`/`dict` method on a value of the
wrong shape): both are uncaught everywhere in the source except by the
catch-all in `extract_identifier`. -/
inductive PyErr where
  | keyError (k : String)
  | indexError
  | typeError
deriving DecidableEq

/-- `startsList sep xs` : `sep` is a prefix of `xs` (structural, over chars). -/
def startsList : List Char → List Char → Bool
  | [], _ => true
  | _ :: _, [] => false
  | a :: as, b :: bs => a = b && startsList as bs

/-- Fuel-based worker for Python `str.split(sep)` (non-overlapping, left to
right).  Fuel `len + 1` is always sufficient: every step consumes at least one
character of the input. -/
def splitCharsAux (sep : List Char) : Nat → List Char → List Char → List (List Char)
  | _, [], acc => [acc.reverse]
  | 0, rest, acc => [acc.reverse ++ rest]
  | fuel + 1, c :: rest, acc =>
    if startsList sep (c :: rest) then
      acc.reverse :: splitCharsAux sep fuel ((c :: rest).drop sep.length) []
    else
      splitCharsAux sep fuel rest (c :: acc)

/-- Python `s.split(sep)` for a non-empty separator (all separators in the
source are non-empty literals). -/
def pySplit (s sep : String) : List String :=
  if sep.data.isEmpty then [s]
  else (splitCharsAux sep.data (s.data.length + 1) s.data []).map String.mk

/-- Python `sep.join(xs)`. -/
def pyJoin (sep : String) : List String → String
  | [] => ""
  | x :: rest => rest.foldl (fun acc y => acc ++ sep ++ y) x

/-- Python `s[-2:]`. -/
def takeLast2 (s : String) : String :=
  String.mk (s.data.drop (s.data.length - 2))

/-- Python `s.lstrip('0')`. -/
def lstripZeros (s : String) : String :=
  String.mk (s.data.dropWhile (fun c => c = '0'))

/-- Python `s.replace(" ", "_")`. -/
def replaceSpaceUnderscore (s : String) : String :=
  String.mk (s.data.map (fun c => if c = ' ' then '_' else c))

/-- Association lookup with string keys (Python `dict` access order:
first—and in a `dict`, only—binding of the key). -/
def lookupStr {α : Type} : List (String × α) → String → Option α
  | [], _ => none
  | (k2, v) :: rest, k => if k2 = k then some v else lookupStr rest k

/-- Python `dict[k] = v`: overwrite in place if the key exists, else append
(insertion order preserved). -/
def insertAssoc {α : Type} (m : List (String × α)) (k : String) (v : α) : List (String × α) :=
  if m.any (fun p => decide (p.1 = k)) then
    m.map (fun p => if p.1 = k then (k, v) else p)
  else m ++ [(k, v)]

/-- Python `d[k]` on a parsed-JSON value: `KeyError` when the key is absent,
`TypeError` when the receiver is not a dict. -/
def Json.getItem : Json → String → Except PyErr Json
  | .obj fs, k =>
    match lookupStr fs k with
    | some v => .ok v
    | none => .error (.keyError k)
  | _, _ => .error .typeError

/-- Python `d.get(k, default)`: total on dicts, `AttributeError` (modelled
`typeError`) on anything else. -/
def Json.getD : Json → String → Json → Except PyErr Json
  | .obj fs, k, d => .ok ((lookupStr fs k).getD d)
  | _, _, _ => .error .typeError

/-- Python `x[i]` for a non-negative integer index: `IndexError` past the end
of a list, `KeyError` on a (string-keyed) dict, `TypeError` otherwise. -/
def Json.index : Json → Nat → Except PyErr Json
  | .arr xs, i =>
    match xs.get? i with
    | some v => .ok v
    | none => .error .indexError
  | .obj _, i => .error (.keyError (Nat.repr i))
  | _, _ => .error .typeError

/-- Python `k in x` for a string `k`: key test on dicts, membership on lists,
substring test on strings, `TypeError` otherwise. -/
def Json.mem (j : Json) (k : String) : Except PyErr Bool :=
  match j with
  | .obj fs => .ok (fs.any (fun p => decide (p.1 = k)))
  | .arr xs =>
    .ok (xs.any (fun x => match x with | .str s => decide (s = k) | _ => false))
  | .str s => .ok (decide (1 < (pySplit s k).length))
  | _ => .error .typeError

/-- Python `for x in j` where the source always iterates a JSON array;
iterating any other shape is modelled as the `TypeError` the loop body would
raise immediately in the source. -/
def Json.iterList : Json → Except PyErr (List Json)
  | .arr xs => .ok xs
  | _ => .error .typeError

/-- A value on which a Python `str` method is invoked must be a string;
anything else raises (`AttributeError`, modelled `typeError`). -/
def Json.asStr : Json → Except PyErr String
  | .str s => .ok s
  | _ => .error .typeError

/-- Python truthiness of a parsed-JSON value. -/
def Json.isTruthy : Json → Bool
  | .null => false
  | .bool b => b
  | .str s => !s.data.isEmpty
  | .num n => n != 0
  | .arr xs => !xs.isEmpty
  | .obj fs => !fs.isEmpty

/-- Python `x == "lit"` for a string literal: true exactly when `x` is that
string (comparisons between a non-`str` value and a `str` are `False`). -/
def Json.eqStr : Json → String → Bool
  | .str a, b => decide (a = b)
  | _, _ => false

/-- Depth-bounded Python `repr` of a parsed-JSON value (fuel keeps every
definition kernel-reducible; no value in the claims exceeds the bound). -/
def pyReprFuel : Nat → Json → String
  | _, .null => "None"
  | _, .bool true => "True"
  | _, .bool false => "False"
  | _, .str s => "'" ++ s ++ "'"
  | _, .num n => Int.repr n
  | 0, .arr _ => "[...]"
  | fuel + 1, .arr xs => "[" ++ pyJoin ", " (xs.map (pyReprFuel fuel)) ++ "]"
  | 0, .obj _ => "\x7b...\x7d"
  | fuel + 1, .obj fs =>
    "\x7b" ++ pyJoin ", " (fs.map (fun p => "'" ++ p.1 ++ "': " ++ pyReprFuel fuel p.2)) ++ "\x7d"

/-- Python `str(x)` / f-string conversion of a parsed-JSON value. -/
def Json.pyStr : Json → String
  | .str s => s
  | j => pyReprFuel 1000 j

-- Structural equality of parsed-JSON values (Python `==` on the values
-- `json.loads` can produce), used for dict-key comparison.
mutual
def jsonBeq : Json → Json → Bool
  | .null, .null => true
  | .bool a, .bool b => a = b
  | .str a, .str b => decide (a = b)
  | .num a, .num b => decide (a = b)
  | .arr xs, .arr ys => jsonBeqList xs ys
  | .obj xs, .obj ys => jsonBeqObj xs ys
  | _, _ => false
def jsonBeqList : List Json → List Json → Bool
  | [], [] => true
  | x :: xs, y :: ys => jsonBeq x y && jsonBeqList xs ys
  | _, _ => false
def jsonBeqObj : List (String × Json) → List (String × Json) → Bool
  | [], [] => true
  | (k1, v1) :: xs, (k2, v2) :: ys => decide (k1 = k2) && jsonBeq v1 v2 && jsonBeqObj xs ys
  | _, _ => false
end

/-- An HTTP response as the source observes it: status code, parsed JSON body
(`response.json()`), raw text (`response.text`). -/
structure HttpResp where
  status : Nat
  body : Json
  text : String

/-- `response.ok` of the `requests` library: status below 400. -/
def respOk (r : HttpResp) : Bool := r.status < 400

/-- The read-only collaborators of the `RTR` object: the HTTP session, the
composed base URL, the run date, the base directory, and the vendor's
geo-name lookup table.  The two boolean feature flags are passed explicitly
to the functions that read them. -/
structure Env where
  fetch : String → HttpResp
  base_url : String
  date : String
  base_dir : String
  geo_variables : List (String × String)

/-- The mutable state of one run: the two accumulator dicts of the `RTR`
object plus the observable sinks (printed log lines, spreadsheet rows,
written files keyed by path). -/
structure St where
  sttr_url_per_activity : List (String × Json)
  werkingsgebied_per_activity : List (Json × List String)
  log : List String
  excel : List (Nat × List Json)
  files : List (String × String)

/-- One entry of the vendor's activity list (`self.urns`); only the four
fields the source unpacks and uses are kept (`name, _, uri, _,
activity_group, rule_reference, _`). -/
structure Activity where
  name : String
  uri : String
  activity_group : String
  rule_reference : String

/-- `RTR.compose_base_url` (rtr.py:175-177). -/
def compose_base_url (envName : String) : String :=
  "https://service" ++ (if envName = "prod" then "" else ".pre")
    ++ ".omgevingswet.overheid.nl/publiek/toepasbare-regels/api"

/-- `RTR.compose_activity_url` (rtr.py:179-180). -/
def compose_activity_url (env : Env) (uri : String) : String :=
  env.base_url ++ "/rtrgegevens/v2/activiteiten/" ++ uri ++ "?datum=" ++ env.date

/-- `RTR.compose_regel_beheer_object_url` (rtr.py:182-183). -/
def compose_regel_beheer_object_url (env : Env) (functional_structure_reference : String) : String :=
  env.base_url ++ "/toepasbareregelsuitvoerengegevens/v1/toepasbareRegels?functioneleStructuurRef="
    ++ functional_structure_reference ++ "&datum=" ++ env.date

/-- `RTR.create_file_path` (rtr.py:202-203), with `/` as path separator. -/
def create_file_path (env : Env) (directory filename : String) : String :=
  env.base_dir ++ "/" ++ directory ++ "/" ++ filename

/-- `RTR.write_to_file` (rtr.py:205-211): render the key/values dict in the
source's format and store it under the path (opening with mode `w`
overwrites). -/
def render_kv (data : List (String × List String)) : String :=
  pyJoin "" (data.map (fun kv =>
    kv.1 ++ "\n" ++ pyJoin "" (kv.2.map (fun v => "\t" ++ v ++ "\n")) ++ "\n"))

def write_to_file (file_path : String) (data : List (String × List String)) (st : St) : St :=
  { st with files := insertAssoc st.files file_path (render_kv data) }

/-- `RTR.get_description` (rtr.py:90-96). -/
def get_description (geo_variables : List (String × String)) (url : String) : String :=
  if url = "nl.imow-ws0636.ambtsgebied.HDSR" then
    "ambtsgebied HDSR"
  else
    let index := takeLast2 ((pySplit url ".").getLastD "")
    let clean_index := lstripZeros index
    match lookupStr geo_variables clean_index with
    | some v => v
    | none => "null: " ++ url

/-- `RTR.extract_activity_description` (rtr.py:77-78). -/
def extract_activity_description (json_data : Json) : Except PyErr Json :=
  json_data.getD "omschrijving" (Json.str "No description")

/-- Loop body of the comprehension in `RTR.extract_identifications`
(rtr.py:80-81). -/
def extract_identifications_loop : List Json → Except PyErr (List Json)
  | [] => .ok []
  | loc :: rest => do
    let i ← loc.getItem "identificatie"
    let is ← extract_identifications_loop rest
    return i :: is

/-- `RTR.extract_identifications` (rtr.py:80-81). -/
def extract_identifications (json_data : Json) : Except PyErr (List Json) := do
  let locs ← (← json_data.getD "locaties" (Json.arr [])).iterList
  extract_identifications_loop locs

/-- Loop of `RTR.match_descriptions` (rtr.py:83-88); `get_description` calls
`str` methods on the identification, so a non-string raises. -/
def match_descriptions_loop (env : Env) : List Json → Except PyErr (List String)
  | [] => .ok []
  | url :: rest => do
    let u ← url.asStr
    let description := get_description env.geo_variables u
    let ds ← match_descriptions_loop env rest
    return description :: ds

/-- `RTR.match_descriptions` (rtr.py:83-88). -/
def match_descriptions (env : Env) (identifications : List Json) : Except PyErr (List String) :=
  match_descriptions_loop env identifications

/-- `RTR.update_activity_mapping` (rtr.py:98-102): extend the existing value
list, else bind a fresh key. -/
def update_activity_mapping (activity_description : Json) (matched_descriptions : List String)
    (st : St) : St :=
  if st.werkingsgebied_per_activity.any (fun p => jsonBeq p.1 activity_description) then
    let extended := st.werkingsgebied_per_activity.map (fun p =>
      if jsonBeq p.1 activity_description then (p.1, p.2 ++ matched_descriptions) else p)
    { st with werkingsgebied_per_activity := extended }
  else
    { st with werkingsgebied_per_activity :=
        st.werkingsgebied_per_activity ++ [(activity_description, matched_descriptions)] }

/-- `RTR.write_werkingsgebieden_to_file` (rtr.py:104-106); dict keys are
f-string rendered by `write_to_file`. -/
def write_werkingsgebieden_to_file (env : Env) (st : St) : St :=
  let file_path := create_file_path env "log" ("werkingsgebieden_" ++ env.date ++ ".txt")
  write_to_file file_path
    (st.werkingsgebied_per_activity.map (fun p => (Json.pyStr p.1, p.2))) st

/-- `RTR.update_werkingsgebied_per_activity` (rtr.py:69-75); `location` is
`self.args.location`. -/
def update_werkingsgebied_per_activity (env : Env) (location : Bool) (json_data : Json)
    (st : St) : Except PyErr St :=
  if location then do
    let activity_description ← extract_activity_description json_data
    let identifications ← extract_identifications json_data
    let matched_descriptions ← match_descriptions env identifications
    let st1 := update_activity_mapping activity_description matched_descriptions st
    return write_werkingsgebieden_to_file env st1
  else
    return st

/-- `RTR.get_activity_data` (rtr.py:59-67): on a non-ok response, print the
error line and return `None`. -/
def get_activity_data (env : Env) (location : Bool) (uri : String) (st : St) :
    Except PyErr (Json × St) := do
  let url := compose_activity_url env uri
  let response := env.fetch url
  if respOk response then do
    let st1 ← update_werkingsgebied_per_activity env location response.body st
    return (response.body, st1)
  else
    return (Json.null,
      { st with log := st.log ++
          ["Error fetching data for URI " ++ uri ++ ": " ++ Nat.repr response.status] })

/-- Loop of `RTR.extract_werkzaamheden` (rtr.py:112-114): trailing `/`-segment
of each work item's href. -/
def extract_hrefs : List Json → Except PyErr (List String)
  | [] => .ok []
  | w :: ws => do
    let href ← (← w.getItem "href").asStr
    let extracted_id := (pySplit href "/").getLastD ""
    let rest ← extract_hrefs ws
    return extracted_id :: rest

/-- `RTR.extract_werkzaamheden` (rtr.py:108-115): requires the `"_links"` key
(plain indexing), then joins the extracted ids, returning a one-element list
either way. -/
def extract_werkzaamheden (data : Json) : Except PyErr (List Json) := do
  let links ← data.getItem "_links"
  if (← links.mem "werkzaamheden") then
    let ws ← (← links.getItem "werkzaamheden").iterList
    let werkzaamheden_list ← extract_hrefs ws
    if werkzaamheden_list.isEmpty then
      return [Json.str ""]
    else
      return [Json.str (pyJoin ", " werkzaamheden_list)]
  else
    return [Json.str ""]

/-- The fixed nested access
`data['_embedded']['toepasbareRegels'][0]['_links']['sttrBestand']['href']`
of `RTR.append_sttr_file` (rtr.py:158). -/
def sttr_href_extract (data : Json) : Except PyErr Json := do
  let embedded ← data.getItem "_embedded"
  let regels ← embedded.getItem "toepasbareRegels"
  let first ← regels.index 0
  let links ← first.getItem "_links"
  let sttrBestand ← links.getItem "sttrBestand"
  sttrBestand.getItem "href"

/-- `RTR.urlparse(url).query` for the source's use: the part after the first
`?` of the non-fragment part (percent-decoding not modelled; no claim
exercises it). -/
def urlparse_query (url : String) : String :=
  let before_fragment := (pySplit url "#").headD ""
  match pySplit before_fragment "?" with
  | [] => ""
  | [_] => ""
  | _ :: rest => pyJoin "?" rest

/-- `urllib.parse.parse_qs` field pairs: split on `&`, keep only fields with
an `=` and a non-empty value (default `keep_blank_values=False`). -/
def parse_qs_pairs (query : String) : List (String × String) :=
  (pySplit query "&").filterMap (fun p =>
    match pySplit p "=" with
    | [] => none
    | [_] => none
    | k :: vs =>
      let v := pyJoin "=" vs
      if v = "" then none else some (k, v))

/-- `urllib.parse.parse_qs`: group the field pairs by key, preserving
insertion order. -/
def parse_qs (query : String) : List (String × List String) :=
  (parse_qs_pairs query).foldl (fun acc kv =>
    if acc.any (fun q => decide (q.1 = kv.1)) then
      acc.map (fun q => if q.1 = kv.1 then (q.1, q.2 ++ [kv.2]) else q)
    else acc ++ [(kv.1, [kv.2])]) []

/-- Body of the `try` of `RTR.extract_identifier` (rtr.py:167-171). -/
def extract_identifier_m (data : Json) : Except PyErr String := do
  let linksD ← data.getD "_links" (Json.obj [])
  let selfD ← linksD.getD "self" (Json.obj [])
  let urlJ ← selfD.getD "href" (Json.str "")
  let url ← urlJ.asStr
  let qs := parse_qs (urlparse_query url)
  let vals := (lookupStr qs "functioneleStructuurRef").getD [""]
  let functionele_structuur_ref := vals.headD ""
  return ((pySplit functionele_structuur_ref "/").getLastD "")

/-- `RTR.extract_identifier` (rtr.py:167-173): catch-all fallback to
`"Unknown"`. -/
def extract_identifier (data : Json) : String :=
  match extract_identifier_m data with
  | .ok s => s
  | .error _ => "Unknown"

/-- `RTR.append_sttr_file` (rtr.py:156-165): only `KeyError` is caught (an
`IndexError` from `[0]` on an empty list propagates); Python renders
`KeyError` as the quoted key, hence the doubled quotes in the log line. -/
def append_sttr_file (urn_name : String) (regelbeheerobject_type : Json) (data : Json)
    (st : St) : Except PyErr St :=
  match sttr_href_extract data with
  | .ok sttr_bestand_href =>
    if !(regelbeheerobject_type.eqStr "null") then do
      let t ← regelbeheerobject_type.asStr
      let regelbeheerobject_name := urn_name ++ "_" ++ replaceSpaceUnderscore t
      .ok { st with sttr_url_per_activity :=
              insertAssoc st.sttr_url_per_activity regelbeheerobject_name sttr_bestand_href }
    else
      .ok st
  | .error (.keyError k) =>
    .ok { st with log := st.log ++
            ["Data missing key: '" ++ ("'" ++ k ++ "'") ++ "'. Regelbeheerobject: "
              ++ extract_identifier data] }
  | .error e => .error e

/-- `RTR.get_last_change_date` (rtr.py:148-154). -/
def get_last_change_date (data : Json) : Except PyErr Json := do
  let embedded ← data.getD "_embedded" (Json.obj [])
  let applicable_rules ← embedded.getD "toepasbareRegels" (Json.arr [])
  if applicable_rules.isTruthy then do
    let first ← applicable_rules.index 0
    first.getD "laatsteWijzigingDatum" (Json.str "")
  else
    return Json.str ""

/-- `RTR.get_regelbeheerobject` (rtr.py:138-146): on a non-ok response the
function falls off the end, returning Python `None` (`Json.null`) with no
log line and no state change. -/
def get_regelbeheerobject (env : Env) (urn_name : String) (object_type : Json)
    (functional_structure_reference : Json) (st : St) : Except PyErr (Json × St) := do
  let url := compose_regel_beheer_object_url env (Json.pyStr functional_structure_reference)
  let response := env.fetch url
  if respOk response then do
    let data := response.body
    let st1 ← append_sttr_file urn_name object_type data st
    let last_changed ← get_last_change_date data
    return (last_changed, st1)
  else
    return (Json.null, st)

/-- The classification of `RTR.process_individual_object` (rtr.py:130-132):
the raw `typering`, replaced by `toestemming.waarde` exactly when the raw
label is `"Indieningsvereisten"`. -/
def classify_object_type (object : Json) : Except PyErr Json := do
  let object_type ← object.getItem "typering"
  if object_type.eqStr "Indieningsvereisten" then
    (← object.getItem "toestemming").getItem "waarde"
  else
    return object_type

/-- `RTR.process_individual_object` (rtr.py:129-136). -/
def process_individual_object (env : Env) (urn_name : String) (object : Json) (st : St) :
    Except PyErr (Json × Json × St) := do
  let object_type ← classify_object_type object
  let functional_structure_reference ← object.getItem "functioneleStructuurRef"
  let (last_changed, st1) ←
    get_regelbeheerobject env urn_name object_type functional_structure_reference st
  return (object_type, last_changed, st1)

/-- The four category labels of `RTR.fetch_and_process_changes`
(rtr.py:124-125), in slot order. -/
def categories : List String := ["Conclusie", "Melding", "Aanvraag vergunning", "Informatie"]

/-- The `for object in data["regelBeheerObjecten"]` loop of
`RTR.fetch_and_process_changes` (rtr.py:122-126): the slot of a classified
object's category is overwritten with its fetched date. -/
def process_objects (env : Env) (urn_name : String) :
    List Json → List Json → St → Except PyErr (List Json × St)
  | [], changes, st => .ok (changes, st)
  | object :: rest, changes, st => do
    let (object_type, last_changed, st1) ← process_individual_object env urn_name object st
    let changes1 :=
      if categories.any (fun c => object_type.eqStr c) then
        changes.set (categories.findIdx (fun c => object_type.eqStr c)) last_changed
      else changes
    process_objects env urn_name rest changes1 st1

/-- `RTR.fetch_and_process_changes` (rtr.py:117-127). -/
def fetch_and_process_changes (env : Env) (data : Json) (st : St) :
    Except PyErr (List Json × St) := do
  let urn ← (← data.getItem "urn").asStr
  let urn_name := (pySplit urn ".").getLastD ""
  let changes : List Json := [Json.str "", Json.str "", Json.str "", Json.str ""]
  if (← data.mem "regelBeheerObjecten") then
    let objs ← (← data.getItem "regelBeheerObjecten").iterList
    process_objects env urn_name objs changes st
  else
    return (changes, st)

/-- `RTR.archive_activity_data` (rtr.py:185-190): assemble and write the
spreadsheet row. -/
def archive_activity_data (env : Env) (row : Nat) (activity : Activity) (data : Json)
    (st : St) : Except PyErr St := do
  let werkzaamheden ← extract_werkzaamheden data
  let (changes, st1) ← fetch_and_process_changes env data st
  let data_to_write :=
    [Json.str activity.name, Json.str activity.uri, Json.str activity.activity_group,
      Json.str activity.rule_reference] ++ werkzaamheden ++ changes
  return { st1 with excel := st1.excel ++ [(row, data_to_write)] }

/-- `RTR.process_activity` (rtr.py:51-57): the row is only written when the
fetched payload is truthy (`if response_json:`). -/
def process_activity (env : Env) (location : Bool) (activity : Activity) (row : Nat)
    (st : St) : Except PyErr St := do
  let (response_json, st1) ← get_activity_data env location activity.uri st
  if response_json.isTruthy then
    archive_activity_data env row activity response_json st1
  else
    return st1

/-- The `for key, url in self.sttr_url_per_activity.items()` loop of
`RTR.archive_sttr_files` (rtr.py:192-200); `url.split('/toepasbareRegels/')[1]`
raises `IndexError` when the marker is absent, and only a 200 status counts
as success. -/
def archive_sttr_loop (env : Env) : List (String × Json) → St → Except PyErr St
  | [], st => .ok st
  | (key, urlJ) :: rest, st => do
    let url ← urlJ.asStr
    match pySplit url "/toepasbareRegels/" with
    | _ :: seg :: _ => do
      let identifier := (pySplit seg "/").headD ""
      let response := env.fetch url
      let st1 :=
        if response.status = 200 then
          write_to_file
            (create_file_path env "log/STTR_RegelBeheerObjecten"
              ("STTR_" ++ identifier ++ "_" ++ key ++ ".xml"))
            [(key, [response.text])] st
        else
          { st with log := st.log ++
              ["Failed to download data from " ++ url ++ ", status code: "
                ++ Nat.repr response.status] }
      archive_sttr_loop env rest st1
    | _ => .error .indexError

/-- `RTR.archive_sttr_files` (rtr.py:192-200). -/
def archive_sttr_files (env : Env) (st : St) : Except PyErr St :=
  archive_sttr_loop env st.sttr_url_per_activity st

/-- The `for row, activity in enumerate(self.urns, 2)` loop of
`RTR.archive_activities` (rtr.py:44-46). -/
def archive_activities_loop (env : Env) (location : Bool) :
    List Activity → Nat → St → Except PyErr St
  | [], _, st => .ok st
  | a :: rest, row, st => do
    let st1 ← process_activity env location a row st
    archive_activities_loop env location rest (row + 1) st1

/-- `RTR.archive_activities` (rtr.py:44-49); `sttrFlag` is `self.args.sttr`. -/
def archive_activities (env : Env) (location sttrFlag : Bool) (urns : List Activity)
    (st : St) : Except PyErr St := do
  let st1 ← archive_activities_loop env location urns 2 st
  if sttrFlag then archive_sttr_files env st1 else return st1

/-- The GeoResolver contract in the spec's own words (spec §4.1 / claim C6):
sentinel bypass, else final dot-delimited segment, last two characters,
leading zeros stripped, table lookup, diagnostic string on a miss. -/
def GeoResolver_resolve_spec (table : List (String × String)) (identifier : String) : String :=
  if identifier = "nl.imow-ws0636.ambtsgebied.HDSR" then
    "ambtsgebied HDSR"
  else
    let final_segment := (pySplit identifier ".").getLastD ""
    let key := lstripZeros (takeLast2 final_segment)
    match lookupStr table key with
    | some v => v
    | none => "null: " ++ identifier

/-- The empty run state (fresh `RTR` object). -/
def stEmpty : St :=
  { sttr_url_per_activity := [], werkingsgebied_per_activity := [], log := [],
    excel := [], files := [] }

/-- A well-formed applicable-rule response body carrying a last-change date
and a document href. -/
def ruleBody (d h : String) : Json :=
  Json.obj [("_embedded", Json.obj [("toepasbareRegels", Json.arr
    [Json.obj [("laatsteWijzigingDatum", Json.str d),
               ("_links", Json.obj [("sttrBestand", Json.obj [("href", Json.str h)])])]])])]

/-- A rule-management object with raw type `t` and functional structure
reference `r`. -/
def mkObj (t r : String) : Json :=
  Json.obj [("typering", Json.str t), ("functioneleStructuurRef", Json.str r)]

/-- A sample activity list entry. -/
def actA : Activity := { name := "N", uri := "U", activity_group := "G", rule_reference := "R" }

/-- Environment for the C1 counterexample: the applicable-rule fetch for
`r1` succeeds with date `D1`, every other fetch fails with status 500. -/
def envC1 : Env :=
  { fetch := fun url =>
      if url = "B/toepasbareregelsuitvoerengegevens/v1/toepasbareRegels?functioneleStructuurRef=r1&datum=T" then
        { status := 200, body := ruleBody "D1" "H1", text := "" }
      else
        { status := 500, body := Json.null, text := "" },
    base_url := "B", date := "T", base_dir := "BASE", geo_variables := [] }

/-- Activity payload with two rule-management objects of the same category
`Conclusie`; the second one's fetch fails under `envC1`. -/
def dataC1 : Json :=
  Json.obj [("urn", Json.str "nl.activiteit.aaa"),
    ("regelBeheerObjecten", Json.arr [mkObj "Conclusie" "r1", mkObj "Conclusie" "r2"])]

/-- The same payload truncated to its first rule-management object. -/
def dataC1a : Json :=
  Json.obj [("urn", Json.str "nl.activiteit.aaa"),
    ("regelBeheerObjecten", Json.arr [mkObj "Conclusie" "r1"])]

/-- Environment for the C2 counterexample: every fetch succeeds with a
payload that has no rule-management objects. -/
def envC2 : Env :=
  { fetch := fun _ =>
      { status := 200, body := Json.obj [("_links", Json.obj []), ("urn", Json.str "a.b")],
        text := "" },
    base_url := "B", date := "T", base_dir := "BASE", geo_variables := [] }

/-- The state produced by processing `actA` under `envC2`. -/
def stC2res : St :=
  match process_activity envC2 false actA 2 stEmpty with
  | .ok st => st
  | .error _ => stEmpty

/-- Environment for the C7 counterexample: every fetch fails with status
500. -/
def envC7 : Env :=
  { fetch := fun _ => { status := 500, body := Json.null, text := "" },
    base_url := "B", date := "T", base_dir := "BASE", geo_variables := [] }

/-- Environment for the C9 counterexample: the activity fetch succeeds with a
payload whose `locaties` entry lacks the `identificatie` key. -/
def envC9 : Env :=
  { fetch := fun _ =>
      { status := 200,
        body := Json.obj [("_links", Json.obj []), ("urn", Json.str "a.b"),
          ("locaties", Json.arr [Json.obj []])],
        text := "" },
    base_url := "B", date := "T", base_dir := "BASE", geo_variables := [] }

/-- Environment for the C9 amended-claim witness: the activity fetch succeeds
with a payload without `locaties`. -/
def envC9w : Env :=
  { fetch := fun _ =>
      { status := 200, body := Json.obj [("_links", Json.obj []), ("urn", Json.str "a.b")],
        text := "" },
    base_url := "B", date := "T", base_dir := "BASE", geo_variables := [] }

/-- The state after the location pass of `envC9w`'s payload on the empty
state. -/
def stC9L : St :=
  match update_werkingsgebied_per_activity envC9w true (envC9w.fetch (compose_activity_url envC9w actA.uri)).body stEmpty with
  | .ok st => st
  | .error _ => stEmpty

/-- Environment for the C3 witness: the applicable-rule fetches for `r1` and
`r2` succeed with dates `D1` and `D2`. -/
def envC3 : Env :=
  { fetch := fun url =>
      if url = "B/toepasbareregelsuitvoerengegevens/v1/toepasbareRegels?functioneleStructuurRef=r1&datum=T" then
        { status := 200, body := ruleBody "D1" "H1", text := "" }
      else if url = "B/toepasbareregelsuitvoerengegevens/v1/toepasbareRegels?functioneleStructuurRef=r2&datum=T" then
        { status := 200, body := ruleBody "D2" "H2", text := "" }
      else
        { status := 500, body := Json.null, text := "" },
    base_url := "B", date := "T", base_dir := "BASE", geo_variables := [] }

/-- Environment for the C1 amended-claim witness, empty-payload side: the
applicable-rule fetch succeeds but the body has none of the expected keys. -/
def envC1b : Env :=
  { fetch := fun _ => { status := 200, body := Json.obj [], text := "" },
    base_url := "B", date := "T", base_dir := "BASE", geo_variables := [] }

/-- Applicable-rule record for the C8 witness: the rule's `_links` lacks
`sttrBestand`, and the record's self-link query carries a recoverable
functional-structure reference ending in `REF9`. -/
def dataC8 : Json :=
  Json.obj [("_embedded", Json.obj [("toepasbareRegels", Json.arr
      [Json.obj [("_links", Json.obj [])]])]),
    ("_links", Json.obj [("self", Json.obj
      [("href", Json.str "https://x/api?functioneleStructuurRef=nl.pre/REF9&datum=1")])])]

/-- The state produced by processing `actA` under `envC9w` with location
tracking disabled. -/
def stC9F : St :=
  match process_activity envC9w false actA 2 stEmpty with
  | .ok st => st
  | .error _ => stEmpty

theorem except_bind_ok {α β : Type} {x : Except PyErr α} {f : α → Except PyErr β} {b : β} :
    (x >>= f) = .ok b ↔ ∃ a, x = .ok a ∧ f a = .ok b := by
  cases x <;> simp [Bind.bind, Except.bind]

theorem lookupStr_any {α : Type} {m : List (String × α)} {k : String} {v : α}
    (h : lookupStr m k = some v) : m.any (fun p => decide (p.1 = k)) = true := by
  induction m with
  | nil => simp [lookupStr] at h
  | cons p rest ih =>
    obtain ⟨k2, v2⟩ := p
    rw [lookupStr] at h
    by_cases hk : k2 = k
    · simp [hk]
    · simp [hk] at h
      simp [hk, ih h]

/-- C4: an object whose raw `typering` is the generic marker
`"Indieningsvereisten"` classifies as the nested `toestemming.waarde`; any
other raw type is the effective category itself, and the nested field is
never consulted (the remaining fields `rest` are arbitrary); in particular
`"Melding"` classifies directly. -/
theorem C4_classification :
    (∀ (w : Json) (rest : List (String × Json)),
      classify_object_type (Json.obj (("typering", Json.str "Indieningsvereisten") ::
        ("toestemming", Json.obj [("waarde", w)]) :: rest)) = .ok w) ∧
    (∀ (t : String) (rest : List (String × Json)), t ≠ "Indieningsvereisten" →
      classify_object_type (Json.obj (("typering", Json.str t) :: rest)) = .ok (Json.str t)) ∧
    (∀ rest : List (String × Json),
      classify_object_type (Json.obj (("typering", Json.str "Melding") :: rest)) =
        .ok (Json.str "Melding")) := by
  refine ⟨fun w rest => rfl, fun t rest ht => ?_, fun rest => rfl⟩
  simp [classify_object_type, Json.getItem, lookupStr, Json.eqStr, ht, Bind.bind, Except.bind,
    Pure.pure, Except.pure]

theorem C4_witness :
    classify_object_type (Json.obj [("typering", Json.str "Melding"),
      ("toestemming", Json.obj [("waarde", Json.str "Conclusie")])]) = .ok (Json.str "Melding") :=
  C4_classification.2.1 "Melding"
    [("toestemming", Json.obj [("waarde", Json.str "Conclusie")])] (by decide)

/-- C6: the geo resolver agrees everywhere with the spec's description
(sentinel bypass; otherwise last two characters of the final dot-delimited
segment, leading zeros stripped, looked up; `"null: <identifier>"` on a
miss), and it is a total function, so no identifier raises; the spec's
concrete examples hold. -/
theorem C6_geo_resolver :
    (∀ (table : List (String × String)) (identifier : String),
      get_description table identifier = GeoResolver_resolve_spec table identifier) ∧
    (∀ table : List (String × String),
      get_description table "nl.imow-ws0636.ambtsgebied.HDSR" = "ambtsgebied HDSR") ∧
    get_description [("7", "Polder X")] "nl.imow-ws0636.gebied.007" = "Polder X" ∧
    get_description [] "nl.imow-ws0636.gebied.007" = "null: nl.imow-ws0636.gebied.007" :=
  ⟨fun _ _ => rfl, fun _ => rfl, rfl, rfl⟩

/-- C10: work-item extraction requires the `"_links"` key: with `"_links"`
present, a missing or empty `werkzaamheden` list yields the one-element
empty-string row fragment; with `"_links"` absent the extraction fails with
`KeyError '_links'`. -/
theorem C10_links_required :
    (∀ (fs : List (String × Json)) (links : Json),
        lookupStr fs "_links" = some links → links.mem "werkzaamheden" = .ok false →
        extract_werkzaamheden (Json.obj fs) = .ok [Json.str ""]) ∧
    (∀ fs gs : List (String × Json),
        lookupStr fs "_links" = some (Json.obj gs) →
        lookupStr gs "werkzaamheden" = some (Json.arr []) →
        extract_werkzaamheden (Json.obj fs) = .ok [Json.str ""]) ∧
    (∀ fs : List (String × Json), lookupStr fs "_links" = none →
        extract_werkzaamheden (Json.obj fs) = .error (.keyError "_links")) := by
  refine ⟨fun fs links h1 h2 => ?_, fun fs gs h1 h2 => ?_, fun fs h1 => ?_⟩
  · simp [extract_werkzaamheden, Json.getItem, h1, h2, Bind.bind, Except.bind,
      Pure.pure, Except.pure]
  · have hany := lookupStr_any h2
    simp [extract_werkzaamheden, Json.getItem, Json.mem, h1, h2, hany, Json.iterList,
      extract_hrefs, Bind.bind, Except.bind, Pure.pure, Except.pure]
  · simp [extract_werkzaamheden, Json.getItem, h1, Bind.bind, Except.bind]

theorem C10_witness :
    extract_werkzaamheden (Json.obj [("_links", Json.obj [])]) = .ok [Json.str ""] ∧
    extract_werkzaamheden (Json.obj [("_links", Json.obj [("werkzaamheden", Json.arr [])])]) =
      .ok [Json.str ""] ∧
    extract_werkzaamheden (Json.obj [("urn", Json.str "a.b")]) = .error (.keyError "_links") :=
  ⟨C10_links_required.1 [("_links", Json.obj [])] (Json.obj []) rfl rfl,
   C10_links_required.2.1 [("_links", Json.obj [("werkzaamheden", Json.arr [])])]
     [("werkzaamheden", Json.arr [])] rfl rfl,
   C10_links_required.2.2 [("urn", Json.str "a.b")] rfl⟩

/-- C8: when the document-href extraction fails on a missing key, the caller
logs a diagnostic built from `extract_identifier` and returns successfully
(no exception reaches the pipeline); `extract_identifier` returns the
recovered reference whenever its parsing body succeeds and falls back to
`"Unknown"` exactly when that body raises. -/
theorem C8_identifier_recovery :
    (∀ (urn : String) (t data : Json) (st : St) (k : String),
        sttr_href_extract data = .error (.keyError k) →
        append_sttr_file urn t data st =
          .ok { st with log := st.log ++ ["Data missing key: '" ++ ("'" ++ k ++ "'") ++ "'. Regelbeheerobject: " ++ extract_identifier data] }) ∧
    (∀ (data : Json) (e : PyErr), extract_identifier_m data = .error e →
        extract_identifier data = "Unknown") ∧
    (∀ (data : Json) (s : String), extract_identifier_m data = .ok s →
        extract_identifier data = s) := by
  refine ⟨fun urn t data st k h => ?_, fun data e h => ?_, fun data s h => ?_⟩
  · simp [append_sttr_file, h]
  · simp [extract_identifier, h]
  · simp [extract_identifier, h]

theorem C8_witness :
    append_sttr_file "aaa" (Json.str "Conclusie") dataC8 stEmpty = .ok { stEmpty with
      log := ["Data missing key: ''sttrBestand''. Regelbeheerobject: REF9"] } :=
  C8_identifier_recovery.1 "aaa" (Json.str "Conclusie") dataC8 stEmpty "sttrBestand" rfl

/-- C5: no `DocumentArchiveIndex` entry is added when the effective category
is the literal `"null"` (even with a valid href) or when the href extraction
fails; in every other successful case the entry binds
`<urn-short-name>_<category with spaces as underscores>` to the href. -/
theorem C5_archive_index :
    (∀ (urn : String) (data : Json) (st st' : St),
        append_sttr_file urn (Json.str "null") data st = .ok st' →
        st'.sttr_url_per_activity = st.sttr_url_per_activity) ∧
    (∀ (urn : String) (t data : Json) (st st' : St) (e : PyErr),
        sttr_href_extract data = .error e →
        append_sttr_file urn t data st = .ok st' →
        st'.sttr_url_per_activity = st.sttr_url_per_activity) ∧
    (∀ (urn s : String) (data href : Json) (st : St),
        sttr_href_extract data = .ok href → s ≠ "null" →
        append_sttr_file urn (Json.str s) data st =
          .ok { st with sttr_url_per_activity := insertAssoc st.sttr_url_per_activity (urn ++ "_" ++ replaceSpaceUnderscore s) href }) := by
  refine ⟨fun urn data st st' h => ?_, fun urn t data st st' e he h => ?_,
    fun urn s data href st hx hs => ?_⟩
  · cases hx : sttr_href_extract data with
    | ok href =>
      simp [append_sttr_file, hx, Json.eqStr] at h
      rw [← h]
    | error e =>
      cases e with
      | keyError k =>
        simp [append_sttr_file, hx] at h
        rw [← h]
      | indexError => simp [append_sttr_file, hx] at h
      | typeError => simp [append_sttr_file, hx] at h
  · cases e with
    | keyError k =>
      simp [append_sttr_file, he] at h
      rw [← h]
    | indexError => simp [append_sttr_file, he] at h
    | typeError => simp [append_sttr_file, he] at h
  · simp [append_sttr_file, hx, Json.eqStr, hs, Json.asStr, Bind.bind, Except.bind]

theorem C5_witness :
    append_sttr_file "aaa" (Json.str "Aanvraag vergunning") (ruleBody "D1" "H1") stEmpty =
      .ok { stEmpty with sttr_url_per_activity := [("aaa_Aanvraag_vergunning", Json.str "H1")] } ∧
    (stEmpty).sttr_url_per_activity = (stEmpty).sttr_url_per_activity ∧
    ({ stEmpty with log := ["Data missing key: ''_embedded''. Regelbeheerobject: "] } : St).sttr_url_per_activity
      = (stEmpty).sttr_url_per_activity :=
  ⟨C5_archive_index.2.2 "aaa" "Aanvraag vergunning" (ruleBody "D1" "H1") (Json.str "H1")
      stEmpty rfl (by decide),
   C5_archive_index.1 "aaa" (ruleBody "D1" "H1") stEmpty stEmpty rfl,
   C5_archive_index.2.1 "aaa" (Json.str "Conclusie") (Json.obj []) stEmpty
     { stEmpty with log := ["Data missing key: ''_embedded''. Regelbeheerobject: "] }
     (.keyError "_embedded") rfl rfl⟩

theorem get_regel_fail (env : Env) (urn_name : String) (object_type ref : Json) (st : St)
    (hf : respOk (env.fetch (compose_regel_beheer_object_url env (Json.pyStr ref))) = false) :
    get_regelbeheerobject env urn_name object_type ref st = .ok (Json.null, st) := by
  simp [get_regelbeheerobject, hf, Pure.pure, Except.pure]

theorem append_ruleBody (urn_name t d h : String) (st : St) (hne : t ≠ "null") :
    append_sttr_file urn_name (Json.str t) (ruleBody d h) st =
      .ok { st with sttr_url_per_activity := insertAssoc st.sttr_url_per_activity (urn_name ++ "_" ++ replaceSpaceUnderscore t) (Json.str h) } := by
  have hx : sttr_href_extract (ruleBody d h) = .ok (Json.str h) := rfl
  simp [append_sttr_file, hx, Json.eqStr, hne, Json.asStr, Bind.bind, Except.bind]

theorem get_regel_ruleBody (env : Env) (urn_name t r d dh : String) (st : St) (hne : t ≠ "null")
    (hf : env.fetch (compose_regel_beheer_object_url env r) = ⟨200, ruleBody d dh, ""⟩) :
    get_regelbeheerobject env urn_name (Json.str t) (Json.str r) st =
      .ok (Json.str d, { st with sttr_url_per_activity := insertAssoc st.sttr_url_per_activity (urn_name ++ "_" ++ replaceSpaceUnderscore t) (Json.str dh) }) := by
  have hlast : get_last_change_date (ruleBody d dh) = .ok (Json.str d) := rfl
  simp [get_regelbeheerobject, Json.pyStr, hf, respOk, append_ruleBody urn_name t d dh st hne,
    hlast, Bind.bind, Except.bind, Pure.pure, Except.pure]

theorem append_emptyBody (urn_name : String) (tt : Json) (st : St) :
    append_sttr_file urn_name tt (Json.obj []) st =
      .ok { st with log := st.log ++ ["Data missing key: ''_embedded''. Regelbeheerobject: "] } := rfl

theorem get_regel_emptyBody (env : Env) (urn_name : String) (tt : Json) (r : String) (st : St)
    (hf : env.fetch (compose_regel_beheer_object_url env r) = ⟨200, Json.obj [], ""⟩) :
    get_regelbeheerobject env urn_name tt (Json.str r) st =
      .ok (Json.str "", { st with log := st.log ++ ["Data missing key: ''_embedded''. Regelbeheerobject: "] }) := by
  have hlast : get_last_change_date (Json.obj []) = .ok (Json.str "") := rfl
  simp [get_regelbeheerobject, Json.pyStr, hf, respOk, append_emptyBody, hlast,
    Bind.bind, Except.bind, Pure.pure, Except.pure]

theorem process_obj_step (env : Env) (urn_name t r : String) (st : St) (lc : Json) (st1 : St)
    (hne : t ≠ "Indieningsvereisten")
    (hreg : get_regelbeheerobject env urn_name (Json.str t) (Json.str r) st = .ok (lc, st1)) :
    process_individual_object env urn_name (mkObj t r) st = .ok (Json.str t, lc, st1) := by
  simp [process_individual_object, classify_object_type, mkObj, Json.getItem, lookupStr,
    Json.eqStr, hne, hreg, Bind.bind, Except.bind, Pure.pure, Except.pure]

theorem process_objects_cons (env : Env) (urn_name : String) (o : Json) (rest changes : List Json)
    (st : St) (tt lc : Json) (st1 : St)
    (hstep : process_individual_object env urn_name o st = .ok (tt, lc, st1)) :
    process_objects env urn_name (o :: rest) changes st =
      process_objects env urn_name rest
        (if categories.any (fun c => tt.eqStr c) then
          changes.set (categories.findIdx (fun c => tt.eqStr c)) lc
        else changes) st1 := by
  simp [process_objects, hstep, Bind.bind, Except.bind]

theorem fetch_changes_entry (env : Env) (u : String) (objs : List Json) (st : St) :
    fetch_and_process_changes env
        (Json.obj [("urn", Json.str u), ("regelBeheerObjecten", Json.arr objs)]) st =
      process_objects env ((pySplit u ".").getLastD "")
        objs [Json.str "", Json.str "", Json.str "", Json.str ""] st := rfl

/-- C1 (counterexample): under `envC1` the first `Conclusie` object's fetch
succeeds with date `"D1"` (slot value after processing it alone), but after
the second same-category object's fetch fails, the slot holds `Json.null`
(Python `None`) — not the previously held `"D1"`: the failed fetch does
update the slot. -/
theorem C1_counterexample :
    (fetch_and_process_changes envC1 dataC1a stEmpty).map (fun p : List Json × St => p.1) =
      .ok [Json.str "D1", Json.str "", Json.str "", Json.str ""] ∧
    (fetch_and_process_changes envC1 dataC1 stEmpty).map (fun p : List Json × St => p.1) =
      .ok [Json.null, Json.str "", Json.str "", Json.str ""] ∧
    Json.null ≠ Json.str "D1" :=
  ⟨rfl, rfl, fun h => Json.noConfusion h⟩

/-- C1 (amended): for a rule-management object of a recognised category whose
applicable-rule fetch fails, the ChangeVector slot for that category is
overwritten with the null value (Python `None`, from the implicit return),
the state otherwise untouched; this stays distinct from a successful fetch
whose payload lacks the applicable-rules keys, which writes the empty string
(and logs the missing key). -/
theorem C1_failed_fetch_writes_null :
    (∀ (env : Env) (st : St) (u t r : String), t ∈ categories →
        respOk (env.fetch (compose_regel_beheer_object_url env r)) = false →
        fetch_and_process_changes env
            (Json.obj [("urn", Json.str u), ("regelBeheerObjecten", Json.arr [mkObj t r])]) st =
          .ok (([Json.str "", Json.str "", Json.str "", Json.str ""]).set
                 (categories.findIdx (fun c => Json.eqStr (Json.str t) c)) Json.null, st)) ∧
    (∀ (env : Env) (st : St) (u t r : String), t ∈ categories →
        env.fetch (compose_regel_beheer_object_url env r) = ⟨200, Json.obj [], ""⟩ →
        fetch_and_process_changes env
            (Json.obj [("urn", Json.str u), ("regelBeheerObjecten", Json.arr [mkObj t r])]) st =
          .ok (([Json.str "", Json.str "", Json.str "", Json.str ""]).set
                 (categories.findIdx (fun c => Json.eqStr (Json.str t) c)) (Json.str ""),
               { st with log := st.log ++ ["Data missing key: ''_embedded''. Regelbeheerobject: "] })) := by
  constructor
  · intro env st u t r ht hf
    have ht' : t = "Conclusie" ∨ t = "Melding" ∨ t = "Aanvraag vergunning" ∨ t = "Informatie" := by
      simpa [categories] using ht
    have hne : t ≠ "Indieningsvereisten" := by rcases ht' with rfl | rfl | rfl | rfl <;> decide
    have hA : categories.any (fun c => Json.eqStr (Json.str t) c) = true := by
      rcases ht' with rfl | rfl | rfl | rfl <;> decide
    rw [fetch_changes_entry]
    rw [process_objects_cons _ _ _ _ _ _ _ _ _ (process_obj_step _ _ _ _ _ _ _ hne
        (get_regel_fail env _ (Json.str t) (Json.str r) st (by simpa [Json.pyStr] using hf)))]
    simp only [hA, if_true]
    rfl
  · intro env st u t r ht hf
    have ht' : t = "Conclusie" ∨ t = "Melding" ∨ t = "Aanvraag vergunning" ∨ t = "Informatie" := by
      simpa [categories] using ht
    have hne : t ≠ "Indieningsvereisten" := by rcases ht' with rfl | rfl | rfl | rfl <;> decide
    have hA : categories.any (fun c => Json.eqStr (Json.str t) c) = true := by
      rcases ht' with rfl | rfl | rfl | rfl <;> decide
    rw [fetch_changes_entry]
    rw [process_objects_cons _ _ _ _ _ _ _ _ _ (process_obj_step _ _ _ _ _ _ _ hne
        (get_regel_emptyBody env _ (Json.str t) r st hf))]
    simp only [hA, if_true]
    rfl

theorem C1_witness :
    fetch_and_process_changes envC1
        (Json.obj [("urn", Json.str "nl.activiteit.aaa"),
          ("regelBeheerObjecten", Json.arr [mkObj "Conclusie" "r2"])]) stEmpty =
      .ok (([Json.str "", Json.str "", Json.str "", Json.str ""]).set
             (categories.findIdx (fun c => Json.eqStr (Json.str "Conclusie") c)) Json.null,
           stEmpty) ∧
    fetch_and_process_changes envC1b
        (Json.obj [("urn", Json.str "u.a"),
          ("regelBeheerObjecten", Json.arr [mkObj "Melding" "r"])]) stEmpty =
      .ok (([Json.str "", Json.str "", Json.str "", Json.str ""]).set
             (categories.findIdx (fun c => Json.eqStr (Json.str "Melding") c)) (Json.str ""),
           { stEmpty with log := stEmpty.log ++ ["Data missing key: ''_embedded''. Regelbeheerobject: "] }) :=
  ⟨C1_failed_fetch_writes_null.1 envC1 stEmpty "nl.activiteit.aaa" "Conclusie" "r2"
      (by decide) rfl,
   C1_failed_fetch_writes_null.2 envC1b stEmpty "u.a" "Melding" "r" (by decide) rfl⟩

/-- C3: when two rule-management objects of one activity classify to the same
recognised category and both applicable-rule fetches succeed, the slot for
that category ends up holding the second object's date, silently overwriting
the first, with no merging. -/
theorem C3_last_write_wins (env : Env) (st : St) (u t r1 r2 d1 e1 d2 e2 : String)
    (ht : t ∈ categories)
    (hf1 : env.fetch (compose_regel_beheer_object_url env r1) = ⟨200, ruleBody d1 e1, ""⟩)
    (hf2 : env.fetch (compose_regel_beheer_object_url env r2) = ⟨200, ruleBody d2 e2, ""⟩) :
    ∃ st' : St, fetch_and_process_changes env
        (Json.obj [("urn", Json.str u),
          ("regelBeheerObjecten", Json.arr [mkObj t r1, mkObj t r2])]) st =
      .ok (([Json.str "", Json.str "", Json.str "", Json.str ""]).set
             (categories.findIdx (fun c => Json.eqStr (Json.str t) c)) (Json.str d2), st') := by
  have ht' : t = "Conclusie" ∨ t = "Melding" ∨ t = "Aanvraag vergunning" ∨ t = "Informatie" := by
    simpa [categories] using ht
  have hne : t ≠ "Indieningsvereisten" := by rcases ht' with rfl | rfl | rfl | rfl <;> decide
  have hnull : t ≠ "null" := by rcases ht' with rfl | rfl | rfl | rfl <;> decide
  have hA : categories.any (fun c => Json.eqStr (Json.str t) c) = true := by
    rcases ht' with rfl | rfl | rfl | rfl <;> decide
  refine ⟨{ st with sttr_url_per_activity := insertAssoc (insertAssoc st.sttr_url_per_activity ((pySplit u ".").getLastD "" ++ "_" ++ replaceSpaceUnderscore t) (Json.str e1)) ((pySplit u ".").getLastD "" ++ "_" ++ replaceSpaceUnderscore t) (Json.str e2) }, ?_⟩
  rw [fetch_changes_entry]
  rw [process_objects_cons _ _ _ _ _ _ _ _ _ (process_obj_step _ _ _ _ _ _ _ hne
      (get_regel_ruleBody env _ t r1 d1 e1 st hnull hf1))]
  rw [process_objects_cons _ _ _ _ _ _ _ _ _ (process_obj_step _ _ _ _ _ _ _ hne
      (get_regel_ruleBody env _ t r2 d2 e2 _ hnull hf2))]
  simp only [hA, if_true]
  rw [List.set_set]
  rfl

theorem C3_witness :
    ∃ st' : St, fetch_and_process_changes envC3
        (Json.obj [("urn", Json.str "nl.activiteit.aaa"),
          ("regelBeheerObjecten", Json.arr [mkObj "Informatie" "r1", mkObj "Informatie" "r2"])]) stEmpty =
      .ok (([Json.str "", Json.str "", Json.str "", Json.str ""]).set
             (categories.findIdx (fun c => Json.eqStr (Json.str "Informatie") c)) (Json.str "D2"),
           st') :=
  C3_last_write_wins envC3 stEmpty "nl.activiteit.aaa" "Informatie" "r1" "r2" "D1" "H1" "D2" "H2"
    (by decide) rfl rfl

/-- C7 (counterexample): a transport failure (status 500, not ok) on an
applicable-rule fetch leaves the state — including the log — completely
unchanged: this failure is not logged anywhere, refuting that every
transport failure is logged with its URL and status. -/
theorem C7_counterexample :
    respOk (envC7.fetch (compose_regel_beheer_object_url envC7 "r1")) = false ∧
    get_regelbeheerobject envC7 "aaa" (Json.str "Conclusie") (Json.str "r1") stEmpty =
      .ok (Json.null, stEmpty) ∧
    stEmpty.log = [] :=
  ⟨rfl, rfl, rfl⟩

/-- C7 (amended): an activity-detail fetch failure is logged with the URI and
status and yields `None` without aborting; an applicable-rule fetch failure
is silently skipped (no log entry, state unchanged) and yields `None`; a
document-archival fetch with a non-200 status is logged with the URL and
status, the file skipped, and the loop continues with the remaining
entries. -/
theorem C7_transport_failures :
    (∀ (env : Env) (location : Bool) (uri : String) (st : St),
        respOk (env.fetch (compose_activity_url env uri)) = false →
        get_activity_data env location uri st =
          .ok (Json.null, { st with log := st.log ++ ["Error fetching data for URI " ++ uri ++ ": " ++ Nat.repr (env.fetch (compose_activity_url env uri)).status] })) ∧
    (∀ (env : Env) (urn_name : String) (object_type ref : Json) (st : St),
        respOk (env.fetch (compose_regel_beheer_object_url env (Json.pyStr ref))) = false →
        get_regelbeheerobject env urn_name object_type ref st = .ok (Json.null, st)) ∧
    (∀ (env : Env) (key url a seg : String) (l : List String) (rest : List (String × Json)) (st : St),
        pySplit url "/toepasbareRegels/" = a :: seg :: l →
        (env.fetch url).status ≠ 200 →
        archive_sttr_loop env ((key, Json.str url) :: rest) st =
          archive_sttr_loop env rest { st with log := st.log ++ ["Failed to download data from " ++ url ++ ", status code: " ++ Nat.repr (env.fetch url).status] }) := by
  refine ⟨fun env location uri st hf => ?_, fun env urn t ref st hf => get_regel_fail env urn t ref st hf,
    fun env key url a seg l rest st hsplit hstatus => ?_⟩
  · simp [get_activity_data, hf, Pure.pure, Except.pure]
  · simp [archive_sttr_loop, Json.asStr, hsplit, hstatus, Bind.bind, Except.bind]

theorem C7_witness :
    get_activity_data envC7 false "U" stEmpty =
      .ok (Json.null, { stEmpty with log := ["Error fetching data for URI U: 500"] }) ∧
    get_regelbeheerobject envC7 "aaa" (Json.str "Melding") (Json.str "rX") stEmpty =
      .ok (Json.null, stEmpty) ∧
    archive_sttr_loop envC7 [("k1", Json.str "B/toepasbareRegels/ID7/x")] stEmpty =
      archive_sttr_loop envC7 []
        { stEmpty with log := ["Failed to download data from B/toepasbareRegels/ID7/x, status code: 500"] } :=
  ⟨C7_transport_failures.1 envC7 false "U" stEmpty rfl,
   C7_transport_failures.2.1 envC7 "aaa" (Json.str "Melding") (Json.str "rX") stEmpty rfl,
   C7_transport_failures.2.2 envC7 "k1" "B/toepasbareRegels/ID7/x" "B" "ID7/x" [] [] stEmpty rfl
     (by decide)⟩

theorem update_activity_mapping_frame (d : Json) (ms : List String) (st : St) :
    (update_activity_mapping d ms st).sttr_url_per_activity = st.sttr_url_per_activity ∧
    (update_activity_mapping d ms st).log = st.log ∧
    (update_activity_mapping d ms st).excel = st.excel ∧
    (update_activity_mapping d ms st).files = st.files := by
  unfold update_activity_mapping
  split <;> exact ⟨rfl, rfl, rfl, rfl⟩

theorem write_werkingsgebieden_frame (env : Env) (st : St) :
    (write_werkingsgebieden_to_file env st).sttr_url_per_activity = st.sttr_url_per_activity ∧
    (write_werkingsgebieden_to_file env st).log = st.log ∧
    (write_werkingsgebieden_to_file env st).excel = st.excel ∧
    (write_werkingsgebieden_to_file env st).werkingsgebied_per_activity
      = st.werkingsgebied_per_activity :=
  ⟨rfl, rfl, rfl, rfl⟩

theorem update_werkingsgebied_false (env : Env) (j : Json) (st : St) :
    update_werkingsgebied_per_activity env false j st = .ok st := rfl

theorem append_sttr_file_frame {urn : String} {t data : Json} {st st' : St}
    (h : append_sttr_file urn t data st = .ok st') :
    st'.werkingsgebied_per_activity = st.werkingsgebied_per_activity ∧
    st'.files = st.files ∧ st'.excel = st.excel := by
  cases hx : sttr_href_extract data with
  | ok href =>
    simp only [append_sttr_file, hx] at h
    by_cases hn : t.eqStr "null" = true
    · simp [hn] at h
      rw [← h]
      exact ⟨rfl, rfl, rfl⟩
    · simp only [Bool.not_eq_true] at hn
      simp [hn, except_bind_ok] at h
      obtain ⟨s, hs1, hs2⟩ := h
      rw [← hs2]
      exact ⟨rfl, rfl, rfl⟩
  | error e =>
    cases e with
    | keyError k =>
      simp [append_sttr_file, hx] at h
      rw [← h]
      exact ⟨rfl, rfl, rfl⟩
    | indexError => simp [append_sttr_file, hx] at h
    | typeError => simp [append_sttr_file, hx] at h

theorem get_regelbeheerobject_frame {env : Env} {urn : String} {t ref : Json} {st : St}
    {out : Json × St} (h : get_regelbeheerobject env urn t ref st = .ok out) :
    out.2.werkingsgebied_per_activity = st.werkingsgebied_per_activity ∧
    out.2.files = st.files ∧ out.2.excel = st.excel := by
  simp only [get_regelbeheerobject] at h
  by_cases hr : respOk (env.fetch (compose_regel_beheer_object_url env (Json.pyStr ref))) = true
  · simp only [hr, if_true, except_bind_ok] at h
    obtain ⟨st1, h1, lc, h2, h3⟩ := h
    simp [Pure.pure, Except.pure] at h3
    rw [← h3]
    exact append_sttr_file_frame h1
  · simp [hr, Pure.pure, Except.pure] at h
    rw [← h]
    exact ⟨rfl, rfl, rfl⟩

theorem process_individual_object_frame {env : Env} {urn : String} {o : Json} {st : St}
    {out : Json × Json × St} (h : process_individual_object env urn o st = .ok out) :
    out.2.2.werkingsgebied_per_activity = st.werkingsgebied_per_activity ∧
    out.2.2.files = st.files ∧ out.2.2.excel = st.excel := by
  simp only [process_individual_object, except_bind_ok] at h
  obtain ⟨tt, h1, fsr, h2, p, h3, h4⟩ := h
  obtain ⟨lc, st1⟩ := p
  simp [Pure.pure, Except.pure] at h4
  rw [← h4]
  exact get_regelbeheerobject_frame h3

theorem process_objects_frame {env : Env} {urn : String} :
    ∀ {objs changes : List Json} {st : St} {out : List Json × St},
      process_objects env urn objs changes st = .ok out →
      out.2.werkingsgebied_per_activity = st.werkingsgebied_per_activity ∧
      out.2.files = st.files ∧ out.2.excel = st.excel ∧ out.1.length = changes.length := by
  intro objs
  induction objs with
  | nil =>
    intro changes st out h
    simp only [process_objects, Except.ok.injEq] at h
    subst h
    exact ⟨rfl, rfl, rfl, rfl⟩
  | cons o rest ih =>
    intro changes st out h
    simp only [process_objects, except_bind_ok] at h
    obtain ⟨p, h1, h2⟩ := h
    obtain ⟨tt, lc, st1⟩ := p
    have hf := process_individual_object_frame h1
    have hr := ih h2
    have hlen : (if categories.any (fun c => tt.eqStr c) then
        changes.set (categories.findIdx (fun c => tt.eqStr c)) lc
      else changes).length = changes.length := by
      split
      · exact List.length_set changes _ _
      · rfl
    exact ⟨hr.1.trans hf.1, hr.2.1.trans hf.2.1, hr.2.2.1.trans hf.2.2,
      hr.2.2.2.trans hlen⟩

theorem fetch_and_process_changes_frame {env : Env} {data : Json} {st : St}
    {out : List Json × St} (h : fetch_and_process_changes env data st = .ok out) :
    out.2.werkingsgebied_per_activity = st.werkingsgebied_per_activity ∧
    out.2.files = st.files ∧ out.2.excel = st.excel ∧ out.1.length = 4 := by
  simp only [fetch_and_process_changes, except_bind_ok] at h
  obtain ⟨urnJ, h1, urn, h2, b, h3, h4⟩ := h
  cases b with
  | true =>
    simp only [if_true, except_bind_ok] at h4
    obtain ⟨objJ, h5, objs, h6, h7⟩ := h4
    exact process_objects_frame h7
  | false =>
    simp [Pure.pure, Except.pure] at h4
    rw [← h4]
    exact ⟨rfl, rfl, rfl, rfl⟩

theorem extract_werkzaamheden_len {data : Json} {l : List Json}
    (h : extract_werkzaamheden data = .ok l) : l.length = 1 := by
  simp only [extract_werkzaamheden, except_bind_ok] at h
  obtain ⟨links, h1, b, h2, h3⟩ := h
  cases b with
  | true =>
    simp only [if_true, except_bind_ok] at h3
    obtain ⟨ws, h4, lst, h5, lsts, h6, h7⟩ := h3
    split at h7 <;> · simp [Pure.pure, Except.pure] at h7; rw [← h7]; rfl
  | false =>
    simp [Pure.pure, Except.pure] at h3
    rw [← h3]
    rfl

theorem update_werkingsgebied_frame {env : Env} {location : Bool} {j : Json} {st st' : St}
    (h : update_werkingsgebied_per_activity env location j st = .ok st') :
    st'.sttr_url_per_activity = st.sttr_url_per_activity ∧ st'.log = st.log ∧
    st'.excel = st.excel := by
  cases location with
  | false =>
    simp [update_werkingsgebied_per_activity, Pure.pure, Except.pure] at h
    rw [← h]
    exact ⟨rfl, rfl, rfl⟩
  | true =>
    simp only [update_werkingsgebied_per_activity, if_true, except_bind_ok] at h
    obtain ⟨desc, h1, ids, h2, ms, h3, h4⟩ := h
    simp [Pure.pure, Except.pure] at h4
    rw [← h4]
    have hu := update_activity_mapping_frame desc ms st
    have hw := write_werkingsgebieden_frame env (update_activity_mapping desc ms st)
    exact ⟨hw.1.trans hu.1, hw.2.1.trans hu.2.1, hw.2.2.1.trans hu.2.2.1⟩

theorem get_activity_data_frame {env : Env} {location : Bool} {uri : String} {st : St}
    {out : Json × St} (h : get_activity_data env location uri st = .ok out) :
    out.2.sttr_url_per_activity = st.sttr_url_per_activity ∧ out.2.excel = st.excel := by
  simp only [get_activity_data] at h
  by_cases hr : respOk (env.fetch (compose_activity_url env uri)) = true
  · simp only [hr, if_true, except_bind_ok] at h
    obtain ⟨st1, h1, h2⟩ := h
    simp [Pure.pure, Except.pure] at h2
    rw [← h2]
    have hu := update_werkingsgebied_frame h1
    exact ⟨hu.1, hu.2.2⟩
  · simp [hr, Pure.pure, Except.pure] at h
    rw [← h]
    exact ⟨rfl, rfl⟩

theorem get_activity_data_false_locframe {env : Env} {uri : String} {st : St} {out : Json × St}
    (h : get_activity_data env false uri st = .ok out) :
    out.2.werkingsgebied_per_activity = st.werkingsgebied_per_activity ∧
    out.2.files = st.files := by
  simp only [get_activity_data] at h
  by_cases hr : respOk (env.fetch (compose_activity_url env uri)) = true
  · simp only [hr, if_true, update_werkingsgebied_false, except_bind_ok] at h
    obtain ⟨st1, h1, h2⟩ := h
    simp [Pure.pure, Except.pure] at h2
    simp [Except.ok.injEq] at h1
    rw [← h2, ← h1]
    exact ⟨rfl, rfl⟩
  · simp [hr, Pure.pure, Except.pure] at h
    rw [← h]
    exact ⟨rfl, rfl⟩

theorem archive_activity_data_shape {env : Env} {row : Nat} {activity : Activity} {data : Json}
    {st st' : St} (h : archive_activity_data env row activity data st = .ok st') :
    st'.werkingsgebied_per_activity = st.werkingsgebied_per_activity ∧ st'.files = st.files ∧
    ∃ cells, st'.excel = st.excel ++ [(row, cells)] ∧ cells.length = 9 := by
  simp only [archive_activity_data, except_bind_ok] at h
  obtain ⟨w, hw, p, hp, h3⟩ := h
  obtain ⟨changes, st1⟩ := p
  simp [Pure.pure, Except.pure] at h3
  have hF := fetch_and_process_changes_frame hp
  have hwl := extract_werkzaamheden_len hw
  rw [← h3]
  refine ⟨hF.1, hF.2.1, ⟨_, by rw [hF.2.2.1], ?_⟩⟩
  simp [List.length_append, hwl]
  simp at hF
  omega

/-- C2 (counterexample): processing an activity whose payload has zero
rule-management objects writes a row of 9 scalar fields (4 identity fields,
1 work-items string, 4 change-vector slots), not 8 as claimed. -/
theorem C2_counterexample :
    (process_activity envC2 false actA 2 stEmpty).map
        (fun st : St => st.excel.map (fun e : Nat × List Json => (e.1, e.2.length))) =
      .ok [(2, 9)] ∧ (9 : Nat) ≠ 8 :=
  ⟨rfl, by decide⟩

/-- C2 (amended): every row the reconciler writes has exactly 9 scalar
fields (name, uri, group, rule-reference, work-items string, and the four
change-vector slots), and an activity with zero rule-management objects gets
the all-empty change vector while its row still has exactly 9 fields. -/
theorem C2_row_fields :
    (∀ (env : Env) (location : Bool) (activity : Activity) (row : Nat) (st st' : St),
        process_activity env location activity row st = .ok st' →
        st'.excel = st.excel ∨ ∃ cells, st'.excel = st.excel ++ [(row, cells)] ∧ cells.length = 9) ∧
    (∀ (env : Env) (data : Json) (st : St) (u : String),
        data.getItem "urn" = .ok (Json.str u) → data.mem "regelBeheerObjecten" = .ok false →
        fetch_and_process_changes env data st =
          .ok ([Json.str "", Json.str "", Json.str "", Json.str ""], st)) := by
  constructor
  · intro env location activity row st st' h
    simp only [process_activity, except_bind_ok] at h
    obtain ⟨p, h1, h2⟩ := h
    obtain ⟨body, st1⟩ := p
    have hga := get_activity_data_frame h1
    split at h2
    · have ha := archive_activity_data_shape h2
      obtain ⟨cells, hc, hlen⟩ := ha.2.2
      exact Or.inr ⟨cells, by rw [hc, hga.2], hlen⟩
    · simp [Pure.pure, Except.pure] at h2
      rw [← h2]
      exact Or.inl hga.2
  · intro env data st u h1 h2
    simp [fetch_and_process_changes, h1, h2, Json.asStr, Bind.bind, Except.bind,
      Pure.pure, Except.pure]

theorem C2_witness :
    (stC2res.excel = stEmpty.excel ∨
      ∃ cells, stC2res.excel = stEmpty.excel ++ [(2, cells)] ∧ cells.length = 9) ∧
    fetch_and_process_changes envC2 (Json.obj [("urn", Json.str "a.b")]) stEmpty =
      .ok ([Json.str "", Json.str "", Json.str "", Json.str ""], stEmpty) :=
  ⟨C2_row_fields.1 envC2 false actA 2 stEmpty stC2res rfl,
   C2_row_fields.2 envC2 (Json.obj [("urn", Json.str "a.b")]) stEmpty "a.b" rfl rfl⟩

/-- C9 (counterexample): with the location flag disabled the activity is
processed and its row written, but with the flag enabled the same activity
raises `KeyError 'identificatie'` (its `locaties` entry lacks that key) and
no row is written — so the rest of the processing is not unaffected by the
flag's value. -/
theorem C9_counterexample :
    (process_activity envC9 false actA 2 stEmpty).map (fun st : St => st.excel.length) =
      .ok 1 ∧
    process_activity envC9 true actA 2 stEmpty = .error (.keyError "identificatie") :=
  ⟨rfl, rfl⟩

/-- C9 (amended): with location tracking disabled, processing an activity
never mutates the LocationMap and never writes a file; the rest of the
processing does not consult the flag: whenever the activity fetch succeeds
and the location pass itself succeeds (turning state `st` into `stL`), the
flag-enabled run coincides with the flag-disabled run started from `stL` —
but if the location pass raises, the flag-enabled run aborts the activity. -/
theorem C9_location_flag :
    (∀ (env : Env) (activity : Activity) (row : Nat) (st st' : St),
        process_activity env false activity row st = .ok st' →
        st'.werkingsgebied_per_activity = st.werkingsgebied_per_activity ∧
        st'.files = st.files) ∧
    (∀ (env : Env) (activity : Activity) (row : Nat) (st stL : St),
        respOk (env.fetch (compose_activity_url env activity.uri)) = true →
        update_werkingsgebied_per_activity env true
            (env.fetch (compose_activity_url env activity.uri)).body st = .ok stL →
        process_activity env true activity row st = process_activity env false activity row stL) := by
  constructor
  · intro env activity row st st' h
    simp only [process_activity, except_bind_ok] at h
    obtain ⟨p, h1, h2⟩ := h
    obtain ⟨body, st1⟩ := p
    have hga := get_activity_data_false_locframe h1
    split at h2
    · have ha := archive_activity_data_shape h2
      exact ⟨ha.1.trans hga.1, ha.2.1.trans hga.2⟩
    · simp [Pure.pure, Except.pure] at h2
      rw [← h2]
      exact hga
  · intro env activity row st stL hok hupd
    simp [process_activity, get_activity_data, hok, hupd, update_werkingsgebied_false,
      Bind.bind, Except.bind, Pure.pure, Except.pure]

theorem C9_witness :
    (stC9F.werkingsgebied_per_activity = stEmpty.werkingsgebied_per_activity ∧
      stC9F.files = stEmpty.files) ∧
    process_activity envC9w true actA 2 stEmpty = process_activity envC9w false actA 2 stC9L :=
  ⟨C9_location_flag.1 envC9w actA 2 stEmpty stC9F rfl,
   C9_location_flag.2 envC9w actA 2 stEmpty stC9L rfl rfl⟩
